import Mathlib

/-!
Verification of the Apps Script batch synchronization engine
(`src/index.js` and the Express server in `src/unnamed/part_001`).

The JavaScript source is shallowly embedded: each JS function the claims
touch becomes a Lean definition of the same name (remote Google API calls
become explicit oracles / environment records, and stateful loops become
folds).  All definitions are executable so that concrete runs can be
checked by `decide` / `rfl`.
-/

/-! ## JavaScript string primitives -/

/-- Whitespace recognized by JS `String.prototype.trim` (the subset that can
occur in spreadsheet cell values). -/
def isWsChar (c : Char) : Bool :=
  c = ' ' || c = '\t' || c = '\n' || c = '\r'

/-- JS `s.trim()` on a list of characters. -/
def jsTrim (cs : List Char) : List Char :=
  ((cs.dropWhile isWsChar).reverse.dropWhile isWsChar).reverse

/-- `needle` occurs at the head of `hay`. -/
def startsWithSeq : List Char → List Char → Bool
  | [], _ => true
  | _ :: _, [] => false
  | a :: as, b :: bs => a = b && startsWithSeq as bs

/-- JS `hay.includes(needle)`: `needle` occurs somewhere in `hay`. -/
def containsSeq (needle : List Char) : List Char → Bool
  | [] => needle.isEmpty
  | c :: tail => startsWithSeq needle (c :: tail) || containsSeq needle tail

/-- JS `s.split(',')` on a list of characters (every comma is a separator,
adjacent commas yield empty fragments). -/
def splitComma : List Char → List (List Char)
  | [] => [[]]
  | c :: rest =>
    if c = ',' then [] :: splitComma rest
    else
      match splitComma rest with
      | [] => [[c]]
      | h :: t => (c :: h) :: t

/-- Characters admitted by the ID-capturing character class `[a-zA-Z0-9-_]`
(also the script-ID validation class `[A-Za-z0-9_-]`). -/
def isIdChar (c : Char) : Bool :=
  c.isAlpha || c.isDigit || c = '-' || c = '_'

/-- Leftmost match of a regex of shape `lit([a-zA-Z0-9-_]+)`: find the first
occurrence of the literal `lit` that is followed by at least one ID
character and return the maximal ID-character run after it (the capture
group), as the JS regex engine does. -/
def findCapture (lit : List Char) : List Char → Option (List Char)
  | [] => none
  | c :: tail =>
    if startsWithSeq lit (c :: tail) then
      let run := ((c :: tail).drop lit.length).takeWhile isIdChar
      if run.isEmpty then findCapture lit tail else some run
    else findCapture lit tail

/-! ## Identifier Resolver -/

/-- `extractSpreadsheetId` (identical in `src/index.js:104` and
`src/unnamed/part_001:99`): `none` models the JS `null` returned for a falsy
input; bare references (no `/`, no `http`) are trimmed and returned; else the
three URL patterns are tried in order and the first capture is returned,
falling back to the trimmed input. -/
def extractSpreadsheetId (input : String) : Option String :=
  if input = "" then none
  else
    let cs := input.data
    if !containsSeq ['/'] cs && !containsSeq ['h', 't', 't', 'p'] cs then
      some (String.mk (jsTrim cs))
    else
      match findCapture "/spreadsheets/d/".data cs with
      | some run => some (String.mk run)
      | none =>
        match findCapture "spreadsheets/d/".data cs with
        | some run => some (String.mk run)
        | none =>
          match findCapture "/d/".data cs with
          | some run => some (String.mk run)
          | none => some (String.mk (jsTrim cs))

/-- JS truthiness on an optional string: `null`, `undefined` and `""` are
falsy; collapse falsy values to `none`. -/
def optTruthy (o : Option String) : Option String :=
  match o with
  | none => none
  | some s => if s = "" then none else some s

/-- How JS renders an optional string inside a template literal
(`null` prints as `"null"`). -/
def jsShow (o : Option String) : String :=
  match o with
  | none => "null"
  | some s => s

/-! ## JS `parseInt` -/

/-- Hexadecimal digit test for `parseInt`'s `0x` form. -/
def isHexDigitChar (c : Char) : Bool :=
  c.isDigit || ('a' ≤ c && c ≤ 'f') || ('A' ≤ c && c ≤ 'F')

/-- Value of a hexadecimal digit. -/
def hexDigitVal (c : Char) : Nat :=
  if c.isDigit then c.toNat - '0'.toNat
  else if 'a' ≤ c && c ≤ 'f' then c.toNat - 'a'.toNat + 10
  else c.toNat - 'A'.toNat + 10

/-- Accumulate a decimal digit run. -/
def foldDec (ds : List Char) : Nat :=
  ds.foldl (fun n c => n * 10 + (c.toNat - '0'.toNat)) 0

/-- Accumulate a hexadecimal digit run. -/
def foldHex (ds : List Char) : Nat :=
  ds.foldl (fun n c => n * 16 + hexDigitVal c) 0

/-- Maximal leading decimal-digit run; `none` when empty (JS `NaN`). -/
def decRun (cs : List Char) : Option Nat :=
  let ds := cs.takeWhile Char.isDigit
  if ds.isEmpty then none else some (foldDec ds)

/-- Unsigned part of JS `parseInt` with no radix argument: a `0x`/`0X` prefix
switches to hexadecimal, otherwise the maximal leading decimal run is
taken; no digits means `NaN` (`none`). -/
def parseDigits (cs : List Char) : Option Nat :=
  match cs with
  | '0' :: c :: rest =>
    if c = 'x' || c = 'X' then
      let hs := rest.takeWhile isHexDigitChar
      if hs.isEmpty then none else some (foldHex hs)
    else decRun cs
  | _ => decRun cs

/-- JS `parseInt(s)` (no radix): trim, optional sign, then `parseDigits`;
`none` models `NaN`. -/
def parseIntJS (cs : List Char) : Option Int :=
  match jsTrim cs with
  | '-' :: r => (parseDigits r).map (fun n => -(n : Int))
  | '+' :: r => (parseDigits r).map (fun n => (n : Int))
  | r => (parseDigits r).map (fun n => (n : Int))

/-! ## Manifest Reader (`readScriptIds`, `src/unnamed/part_001:125`, and
`readSheetIds`, `src/index.js:132`) -/

/-- The pairwise coordinate loop of `readScriptIds`
(`src/unnamed/part_001:157-166`): tokens are consumed two at a time
(`i += 2`); a pair is kept only when both tokens parse to numbers
(`!isNaN`), and a trailing unpaired token is dropped (`i + 1 < length`). -/
def parsePairs : List (List Char) → List (Int × Int)
  | a :: b :: rest =>
    (match parseIntJS a, parseIntJS b with
     | some col, some rowNum => (col, rowNum) :: parsePairs rest
     | _, _ => parsePairs rest)
  | _ => []

/-- `row[2] ? row[2].split(',').map(id => id.trim()).filter(id => id) : []`
(`src/unnamed/part_001:153`). -/
def decodeAssets (cell : Option String) : List String :=
  match cell with
  | none => []
  | some s =>
    if s = "" then []
    else (((splitComma s.data).map jsTrim).filter (fun t => !t.isEmpty)).map String.mk

/-- Coordinate cell decoding (`src/unnamed/part_001:154-166`): split on
commas, trim, drop empty tokens, then consume pairwise via `parsePairs`. -/
def decodeCoords (cell : Option String) : List (Int × Int) :=
  match cell with
  | none => []
  | some s =>
    if s = "" then []
    else parsePairs (((splitComma s.data).map jsTrim).filter (fun t => !t.isEmpty))

/-- The per-target record stored in the manifest map
(`src/unnamed/part_001:169-173`). -/
structure RowData where
  scriptId : String
  buttonImageIds : List String
  coordinates : List (Int × Int)
deriving DecidableEq, Repr

/-- `extractSpreadsheetId(row[0])`, with a missing cell behaving as JS
`undefined` (falsy, so `null`). -/
def rowSpreadsheetIdRaw (row : List String) : Option String :=
  match row.get? 0 with
  | none => none
  | some c => extractSpreadsheetId c

/-- `row[1] ? row[1].trim() : null` (`src/unnamed/part_001:152` and
`src/index.js:148`). -/
def rowScriptIdRaw (row : List String) : Option String :=
  match row.get? 1 with
  | none => none
  | some c => if c = "" then none else some (String.mk (jsTrim c.data))

/-- Acceptance test and record construction for one manifest row
(`src/unnamed/part_001:168-173`): the row is stored iff
`spreadsheetId && scriptId` are both truthy. -/
def decodeRow (row : List String) : Option (String × RowData) :=
  match optTruthy (rowSpreadsheetIdRaw row), optTruthy (rowScriptIdRaw row) with
  | some sid, some scr =>
    some (sid, ⟨scr, decodeAssets (row.get? 2), decodeCoords (row.get? 3)⟩)
  | _, _ => none

/-- The manifest, modelled as the association list underlying the JS `Map`. -/
def Manifest := List (String × RowData)

/-- JS `Map.prototype.set`: overwrite in place when the key is present,
append otherwise. -/
def mapSet (m : List (String × RowData)) (k : String) (v : RowData) :
    List (String × RowData) :=
  if m.any (fun p => p.1 == k) then
    m.map (fun p => if p.1 == k then (k, v) else p)
  else m ++ [(k, v)]

/-- JS `Map.prototype.get` (`undefined` is `none`). -/
def mapGet (m : List (String × RowData)) (k : String) : Option RowData :=
  (m.find? (fun p => p.1 == k)).map (fun p => p.2)

/-- One `rows.forEach` step of `readScriptIds`. -/
def readRowStep (m : List (String × RowData)) (row : List String) :
    List (String × RowData) :=
  match decodeRow row with
  | some (k, v) => mapSet m k v
  | none => m

/-- The pure row-processing core of `readScriptIds`
(`src/unnamed/part_001:148-180`): fold the fetched rows into a `Map`. -/
def readScriptIdsModel (rows : List (List String)) : List (String × RowData) :=
  rows.foldl readRowStep []

/-- One entry of `readSheetIds`'s result (`src/index.js:146-149`). -/
structure SheetEntry where
  spreadsheetId : Option String
  scriptId : Option String
deriving DecidableEq, Repr

/-- Filter condition of `readSheetIds`
(`item.spreadsheetId && item.spreadsheetId.length > 0`). -/
def sheetEntryKept (e : SheetEntry) : Bool :=
  match e.spreadsheetId with
  | some s => s != ""
  | none => false

/-- The pure row-processing core of `readSheetIds` (`src/index.js:144-153`):
map rows to entries, then keep those with a truthy spreadsheet ID (rows with
a missing script ID are kept, with `scriptId = null`). -/
def readSheetIdsModel (rows : List (List String)) : List SheetEntry :=
  (rows.map (fun row => SheetEntry.mk (rowSpreadsheetIdRaw row) (rowScriptIdRaw row))).filter
    sheetEntryKept

/-! ## Content Transfer Engine (`copyFunction`, `src/unnamed/part_001:189`,
and `updateScriptContent`, `src/index.js:208`) -/

/-- One file of a script project (`{name, type, source}`). -/
structure ScriptFile where
  name : String
  type : String
  source : String
deriving DecidableEq, Repr

/-- Source-file selection in `copyFunction`
(`sourceFiles.find(f => f.name === 'Code' && f.type === 'SERVER_JS')`,
`src/unnamed/part_001:196`). -/
def copyFunctionSourceFile (sourceFiles : List ScriptFile) : Option ScriptFile :=
  sourceFiles.find? (fun f => f.name == "Code" && f.type == "SERVER_JS")

/-- Replacement file list built by `copyFunction`
(`src/unnamed/part_001:210-220`): drop every file named `Code`, then append
a fresh `Code` / `SERVER_JS` file carrying the source project's code. -/
def copyFunctionFiles (sourceFunctionFile : ScriptFile)
    (targetFiles : List ScriptFile) : List ScriptFile :=
  targetFiles.filter (fun f => f.name != "Code")
    ++ [⟨"Code", "SERVER_JS", sourceFunctionFile.source⟩]

/-- The pure content transform of `copyFunction`: find the source `Code`
file (else the `No Code.gs file found` error) and produce the file list
pushed by `updateContent`. -/
def copyFunctionModel (sourceFiles targetFiles : List ScriptFile) :
    Except String (List ScriptFile) :=
  match copyFunctionSourceFile sourceFiles with
  | none => .error "No Code.gs file found in source script project"
  | some sf => .ok (copyFunctionFiles sf targetFiles)

/-- Code-file test used by `updateScriptContent`'s source-file search
(`src/index.js:217-219`): exact name `Code`, exact name `Código`, or a name
containing `Code` — one boolean disjunction. -/
def indexCodeMatch (f : ScriptFile) : Bool :=
  f.name == "Code" || f.name == "Código" || containsSeq "Code".data f.name.data

/-- Source-file selection in `updateScriptContent`
(`sourceContent.files.find(...)`, `src/index.js:217`): the first file in
list order satisfying `indexCodeMatch`. -/
def sourceCodeFile (files : List ScriptFile) : Option ScriptFile :=
  files.find? indexCodeMatch

/-- Per-file replacement step of `updateScriptContent`
(`src/index.js:226-237`): a file named `Code`/`Código` or typed `SERVER_JS`
keeps its own name and type but takes the source file's code; every other
file passes through unchanged. -/
def updFile (srcSource : String) (f : ScriptFile) : ScriptFile :=
  if f.name == "Code" || f.name == "Código" || f.type == "SERVER_JS" then
    ⟨f.name, f.type, srcSource⟩
  else f

/-- Replacement file list built by `updateScriptContent`
(`existingContent.data.files.map(...)`, `src/index.js:226`). -/
def updateScriptFiles (srcSource : String) (files : List ScriptFile) :
    List ScriptFile :=
  files.map (updFile srcSource)

/-- The pure content transform of `updateScriptContent`: find the designated
code file in the source project (else the `SourceFileMissing` error) and
produce the file list pushed by `updateContent`. -/
def updateScriptContentModel (sourceFiles targetFiles : List ScriptFile) :
    Except String (List ScriptFile) :=
  match sourceCodeFile sourceFiles with
  | none => .error "No Code.gs file found in source project"
  | some sf => .ok (updateScriptFiles sf.source targetFiles)

/-- Modelled from the spec: the source-file search as §4.4 words it —
"match by exact reserved name, a known localized alias, or substring match,
in that priority — first match wins".  Used only to compare the spec's
claimed selection rule against `sourceCodeFile` above. -/
def specCodeFilePriority (files : List ScriptFile) : Option ScriptFile :=
  match files.find? (fun f => f.name == "Code") with
  | some f => some f
  | none =>
    match files.find? (fun f => f.name == "Código") with
    | some f => some f
    | none => files.find? (fun f => containsSeq "Code".data f.name.data)

/-! ## Remote Asset-Placement Synthesizer (`copyButtonsFromSheet`,
`src/unnamed/part_001:274`) -/

/-- The remote (network) calls `copyButtonsFromSheet` can make, in source
order: the master-sheet read inside `readScriptIds` (metadata + value
range), the `script.projects.get` probe inside
`validateAndTestScriptAccess`, and the `getContent` / `updateContent` /
`scripts.run` calls against the target project. -/
inductive RemoteCall where
  | manifestRead : RemoteCall
  | scriptProbe : String → RemoteCall
  | contentGet : String → RemoteCall
  | contentUpdate : String → RemoteCall
  | scriptRun : String → RemoteCall
deriving DecidableEq, Repr

/-- Per-button outcome reported by the generated procedure. -/
structure BtnOutcome where
  position : String
  imageId : String
  error : Option String
deriving DecidableEq, Repr

/-- The `result` object returned by a successful remote execution of
`copyButtonsWithFunctions`. -/
structure ExecReport where
  success : Bool
  copiedCount : Nat
  buttons : List BtnOutcome
  message : String
deriving DecidableEq, Repr

/-- `runResponse.data`: an execution-level `error` or an optional
`response.result` payload. -/
structure RunResp where
  err : Option String
  result : Option ExecReport
deriving DecidableEq, Repr

/-- The value `copyButtonsFromSheet` resolves with
(`src/unnamed/part_001:539-546`). -/
structure BtnResult where
  success : Bool
  scriptId : String
  functionName : String
  copiedCount : Nat
  buttons : List BtnOutcome
  message : String
deriving DecidableEq, Repr

/-- Oracle for the remote services consumed by `copyButtonsFromSheet`: the
fetched master-sheet rows (or a read failure), the script-metadata probe,
and the target project's content/read, content/write and execution
endpoints. -/
structure ButtonsEnv where
  readRows : Except String (List (List String))
  probe : String → Except String String
  contentOf : String → Except String (List ScriptFile)
  updateRes : String → List ScriptFile → Option String
  runOf : String → Except String RunResp

/-- Result of `validateAndTestScriptAccess` (`src/unnamed/part_001:239`). -/
inductive ValidateRes where
  | valid : String → ValidateRes
  | invalid : String → ValidateRes
deriving DecidableEq, Repr

/-- `validateAndTestScriptAccess` (`src/unnamed/part_001:239-269`): the
length and character-class checks are local; only when both pass is the
remote `script.projects.get` probe issued (recorded in the trace). -/
def validateAndTestScriptAccess (env : ButtonsEnv) (scriptId : String) :
    ValidateRes × List RemoteCall :=
  if scriptId = "" || scriptId.length < 20 then
    (.invalid "Script ID too short", [])
  else if !(!scriptId.data.isEmpty && scriptId.data.all isIdChar) then
    (.invalid "Script ID contains invalid characters", [])
  else
    match env.probe scriptId with
    | .ok title => (.valid title, [.scriptProbe scriptId])
    | .error e => (.invalid e, [.scriptProbe scriptId])

/-- One element of the `buttonData` JSON literal
(`src/unnamed/part_001:337-341`). -/
def buttonEntryJson (id : String) (c r : Int) : String :=
  "\x7b\"imageId\":\"" ++ id ++ "\",\"col\":" ++ toString c
    ++ ",\"row\":" ++ toString r ++ "\x7d"

/-- `JSON.stringify(buttonImageIds.map((id, i) => ({imageId, col, row})))`:
the ID list zipped with the coordinate pairs (the two lists have equal
length when this runs). -/
def buttonDataJson (ids : List String) (coords : List (Int × Int)) : String :=
  "[" ++ String.intercalate ","
    ((ids.zip coords).map (fun p => buttonEntryJson p.1 p.2.1 p.2.2)) ++ "]"

/-- The generated `tempCopyButtons` source (`src/unnamed/part_001:344-448`),
abbreviated: the JS template interpolates the target spreadsheet ID, the
target sheet tab, the `buttonData` JSON literal and (optionally) the
assigned handler name into a fixed procedure body; no verified claim
depends on the literal text, only on which values are embedded. -/
def tempScriptSource (targetSpreadsheetId targetSheetTab buttonData : String)
    (buttonScript : Option String) : String :=
  "function copyButtonsWithFunctions() ... openById('" ++ targetSpreadsheetId
    ++ "') ... getSheetByName('" ++ targetSheetTab
    ++ "') ... var buttons = " ++ buttonData ++ "; ..."
    ++ (match buttonScript with
        | some b => " newImage.assignScript('" ++ b ++ "'); ..."
        | none => " ...")

/-- Fallback for `executionResult = runResponse.data.response?.result ||
{ success: true }` (`src/unnamed/part_001:505`). -/
def defaultExecReport : ExecReport := ⟨true, 0, [], ""⟩

/-- `copyButtonsFromSheet` (`src/unnamed/part_001:274-550`), returning the
resolved value or the thrown error message together with the ordered trace
of remote calls made.  `targetSpreadsheetId` is the (possibly `null`)
result of `extractSpreadsheetId` at the call site. -/
def copyButtonsModel (env : ButtonsEnv) (targetSpreadsheetId : Option String)
    (targetSheetTab : String) (buttonScript : Option String) :
    Except String BtnResult × List RemoteCall :=
  let wrap := fun (e : String) =>
    "Error copying buttons to " ++ jsShow targetSpreadsheetId ++ ": " ++ e
  match env.readRows with
  | .error e =>
    (.error (wrap ("Error reading source spreadsheet: " ++ e)), [.manifestRead])
  | .ok rows =>
    let m := readScriptIdsModel rows
    match targetSpreadsheetId.bind (fun k => mapGet m k) with
    | none =>
      (.error (wrap ("No script ID found for target spreadsheet "
        ++ jsShow targetSpreadsheetId)), [.manifestRead])
    | some targetData =>
      if targetData.scriptId = "" then
        (.error (wrap ("No script ID found for target spreadsheet "
          ++ jsShow targetSpreadsheetId)), [.manifestRead])
      else
        let sid := targetData.scriptId
        match validateAndTestScriptAccess env sid with
        | (.invalid err, tr1) =>
          (.error (wrap ("Cannot access script " ++ sid ++ ": " ++ err)),
            .manifestRead :: tr1)
        | (.valid _, tr1) =>
          if targetData.buttonImageIds.isEmpty then
            (.error (wrap ("No button image IDs found for "
              ++ jsShow targetSpreadsheetId)), .manifestRead :: tr1)
          else if targetData.coordinates.isEmpty then
            (.error (wrap ("No coordinates found for "
              ++ jsShow targetSpreadsheetId)), .manifestRead :: tr1)
          else if targetData.buttonImageIds.length ≠ targetData.coordinates.length then
            (.error (wrap ("Mismatch: " ++ toString targetData.buttonImageIds.length
              ++ " button IDs but " ++ toString targetData.coordinates.length
              ++ " coordinate pairs")), .manifestRead :: tr1)
          else
            let tmpSource := tempScriptSource (jsShow targetSpreadsheetId)
              targetSheetTab
              (buttonDataJson targetData.buttonImageIds targetData.coordinates)
              buttonScript
            let existingFiles := match env.contentOf sid with
              | .ok fs => fs
              | .error _ => []
            let updatedFiles :=
              existingFiles.filter (fun f => f.name != "tempCopyButtons")
                ++ [⟨"tempCopyButtons", "SERVER_JS", tmpSource⟩]
            let tr2 := .manifestRead :: tr1 ++ [.contentGet sid, .contentUpdate sid]
            match env.updateRes sid updatedFiles with
            | some e => (.error (wrap e), tr2)
            | none =>
              match env.runOf sid with
              | .error e => (.error (wrap e), tr2 ++ [.scriptRun sid])
              | .ok resp =>
                match resp.err with
                | some msg =>
                  (.error (wrap ("Execution failed: " ++ msg)),
                    tr2 ++ [.scriptRun sid])
                | none =>
                  let er := resp.result.getD defaultExecReport
                  (.ok ⟨true, sid, "copyButtonsWithFunctions", er.copiedCount,
                      er.buttons,
                      if er.message = "" then "Buttons copied successfully"
                      else er.message⟩,
                    tr2 ++ [.scriptRun sid])

/-! ## Batch Orchestrator (`app.post('/')`, `src/unnamed/part_001:597-748`) -/

/-- One entry of the per-target `details` list in the response; absent JSON
fields are `none`. -/
structure Detail where
  spreadsheetId : Option String
  status : String
  scriptId : Option String
  functionName : Option String
  copiedCount : Option Nat
  buttons : Option (List BtnOutcome)
  message : Option String
  error : Option String
deriving DecidableEq, Repr

/-- One operation's accumulator in the response
(`{ total, successful, failed, details }`, `src/unnamed/part_001:659-660`). -/
structure OpSummary where
  total : Nat
  successful : Nat
  failed : Nat
  details : List Detail
deriving DecidableEq, Repr

/-- The detail pushed in either loop's `catch`
(`{spreadsheetId, status: 'failed', error}`). -/
def failDetail (t : String) (e : String) : Detail :=
  ⟨extractSpreadsheetId t, "failed", none, none, none, none, none, some e⟩

/-- The detail pushed on success in the `copyFunctions` loop
(`{spreadsheetId, status: 'success', scriptId}`,
`src/unnamed/part_001:689-693`). -/
def functionsOkDetail (t : String) (sid : String) : Detail :=
  ⟨extractSpreadsheetId t, "success", some sid, none, none, none, none, none⟩

/-- The detail pushed on success in the `copyButtons` loop
(`src/unnamed/part_001:725-733`). -/
def buttonsOkDetail (t : String) (r : BtnResult) : Detail :=
  ⟨extractSpreadsheetId t, "success", some r.scriptId, some r.functionName,
    some r.copiedCount, some r.buttons, some r.message, none⟩

/-- Body of the `try` block of one `copyFunctions` iteration
(`src/unnamed/part_001:681-693`): look the extracted target ID up in the
manifest, throw when absent, then run `copyFunction` (modelled by the
`copyRes` oracle, keyed by the target's script ID); the success value is
`result.scriptId`, which `copyFunction` sets to the target script ID. -/
def functionsTryBlock (m : List (String × RowData))
    (copyRes : String → Except String Unit) (t : String) :
    Except String String :=
  let tid := extractSpreadsheetId t
  match tid.bind (fun k => mapGet m k) with
  | none => .error ("No script ID found for " ++ jsShow tid)
  | some td =>
    if td.scriptId = "" then .error ("No script ID found for " ++ jsShow tid)
    else
      match copyRes td.scriptId with
      | .ok _ => .ok td.scriptId
      | .error e => .error e

/-- Body of the `try` block of one `copyButtons` iteration
(`src/unnamed/part_001:714-733`): `copyButtonsFromSheet` on the extracted
target ID (its remote-call trace is irrelevant to the loop). -/
def buttonsTryBlock (env : ButtonsEnv) (targetSheetTab : String)
    (buttonScript : Option String) (t : String) : Except String BtnResult :=
  (copyButtonsModel env (extractSpreadsheetId t) targetSheetTab buttonScript).1

/-- One loop iteration: on success push the success detail and bump
`successful`; on a thrown error push the failure detail and bump `failed`
(`src/unnamed/part_001:679-702` and `712-742`). -/
def opStep {α : Type} (okD : String → α → Detail)
    (step : String → Except String α) (s : OpSummary) (t : String) : OpSummary :=
  match step t with
  | .ok a => ⟨s.total, s.successful + 1, s.failed, s.details ++ [okD t a]⟩
  | .error e => ⟨s.total, s.successful, s.failed + 1, s.details ++ [failDetail t e]⟩

/-- One operation's whole loop: `total` is set to the target count up front
(`response.copyFunctions.total = functionsTargetSheets.length`), the
counters start at zero, and the targets are folded in input order. -/
def processOp {α : Type} (okD : String → α → Detail)
    (step : String → Except String α) (targets : List String) : OpSummary :=
  targets.foldl (opStep okD step) ⟨targets.length, 0, 0, []⟩

/-- The `copyFunctions` loop (`src/unnamed/part_001:679-702`), run after the
master manifest `m` has been read successfully. -/
def processFunctionsOp (m : List (String × RowData))
    (copyRes : String → Except String Unit) (targets : List String) : OpSummary :=
  processOp functionsOkDetail (functionsTryBlock m copyRes) targets

/-- The `copyButtons` loop (`src/unnamed/part_001:712-742`). -/
def processButtonsOp (env : ButtonsEnv) (targetSheetTab : String)
    (buttonScript : Option String) (targets : List String) : OpSummary :=
  processOp buttonsOkDetail (buttonsTryBlock env targetSheetTab buttonScript) targets

/-- Whether an `Except` is a success (`true` ⟺ the `try` body returned). -/
def exceptOk {α : Type} : Except String α → Bool
  | .ok _ => true
  | .error _ => false

/-- The single detail a target contributes, as a function of its own `try`
outcome alone. -/
def outcomeDetail {α : Type} (okD : String → α → Detail)
    (step : String → Except String α) (t : String) : Detail :=
  match step t with
  | .ok a => okD t a
  | .error e => failDetail t e

/-! ## Helper lemmas -/

theorem countP_add_not (p : α → Bool) (l : List α) :
    l.countP p + l.countP (fun a => !p a) = l.length := by
  induction l with
  | nil => simp
  | cons a l ih =>
    by_cases h : p a = true <;>
      simp [List.countP_cons, h, ← ih] <;> omega

theorem processOp_foldl {α : Type} (okD : String → α → Detail)
    (step : String → Except String α) :
    ∀ (targets : List String) (T s f : Nat) (d : List Detail),
      List.foldl (opStep okD step) ⟨T, s, f, d⟩ targets =
        ⟨T, s + targets.countP (fun t => exceptOk (step t)),
          f + targets.countP (fun t => !exceptOk (step t)),
          d ++ targets.map (outcomeDetail okD step)⟩ := by
  intro targets
  induction targets with
  | nil => intro T s f d; simp
  | cons t ts ih =>
    intro T s f d
    cases h : step t with
    | ok a =>
      simp only [List.foldl_cons, opStep, h, ih, List.countP_cons,
        List.map_cons, exceptOk, outcomeDetail, OpSummary.mk.injEq]
      refine ⟨trivial, by simp <;> omega, by simp <;> omega, by simp⟩
    | error e =>
      simp only [List.foldl_cons, opStep, h, ih, List.countP_cons,
        List.map_cons, exceptOk, outcomeDetail, OpSummary.mk.injEq]
      refine ⟨trivial, by simp <;> omega, by simp <;> omega, by simp⟩

theorem processOp_spec {α : Type} (okD : String → α → Detail)
    (step : String → Except String α) (targets : List String) :
    processOp okD step targets =
      ⟨targets.length, targets.countP (fun t => exceptOk (step t)),
        targets.countP (fun t => !exceptOk (step t)),
        targets.map (outcomeDetail okD step)⟩ := by
  unfold processOp
  rw [processOp_foldl]
  simp

theorem mapGet_mapSet_self (m : List (String × RowData)) (k : String) (v : RowData) :
    mapGet (mapSet m k v) k = some v := by
  unfold mapSet
  by_cases h : m.any (fun p => p.1 == k) = true
  · simp only [h, if_true]
    induction m with
    | nil => simp at h
    | cons a as ih =>
      by_cases ha : a.1 == k
      · simp [mapGet, List.find?, ha]
      · simp only [List.any_cons, ha, Bool.false_or] at h
        simp only [List.map_cons, if_neg (by simpa using ha)]
        simpa [mapGet, List.find?, ha] using ih h
  · simp only [h, if_false]
    induction m with
    | nil => simp [mapGet, List.find?]
    | cons a as ih =>
      simp only [List.any_cons, Bool.or_eq_true, not_or] at h
      simp only [List.cons_append]
      simp [mapGet, List.find?, h.1]
      simpa [mapGet] using ih (by simp [h.2])

theorem mapGet_map_subst (m : List (String × RowData)) (k k' : String) (v : RowData)
    (hne : k' ≠ k) :
    mapGet (m.map (fun p => if p.1 == k then (k, v) else p)) k' = mapGet m k' := by
  induction m with
  | nil => rfl
  | cons a as ih =>
    by_cases ha : (a.1 == k) = true
    · have hak : a.1 = k := by simpa using ha
      have h1 : (k == k') = false := by
        simp only [beq_eq_false_iff_ne]; exact fun hh => hne hh.symm
      have h2 : (a.1 == k') = false := by rw [hak]; exact h1
      simp only [List.map_cons, if_pos ha, mapGet, List.find?_cons, h1, h2]
      exact ih
    · simp only [List.map_cons, if_neg ha]
      by_cases ha' : (a.1 == k') = true
      · simp only [mapGet, List.find?_cons, ha']
      · simp only [Bool.not_eq_true] at ha'
        simp only [mapGet, List.find?_cons, ha']
        exact ih

theorem mapGet_append_single_ne (m : List (String × RowData)) (k k' : String)
    (v : RowData) (hne : k' ≠ k) : mapGet (m ++ [(k, v)]) k' = mapGet m k' := by
  have h1 : (k == k') = false := by
    simp only [beq_eq_false_iff_ne]; exact fun hh => hne hh.symm
  induction m with
  | nil =>
    simp only [List.nil_append, mapGet, List.find?_cons, h1, List.find?_nil,
      Option.map_none']
  | cons a as ih =>
    by_cases ha' : (a.1 == k') = true
    · simp only [List.cons_append, mapGet, List.find?_cons, ha']
    · simp only [Bool.not_eq_true] at ha'
      simp only [List.cons_append, mapGet, List.find?_cons, ha']
      exact ih

theorem mapGet_mapSet_ne (m : List (String × RowData)) (k k' : String) (v : RowData)
    (hne : k' ≠ k) : mapGet (mapSet m k v) k' = mapGet m k' := by
  unfold mapSet
  by_cases h : m.any (fun p => p.1 == k) = true
  · simp only [h, if_true]
    exact mapGet_map_subst m k k' v hne
  · simp only [h, if_false]
    exact mapGet_append_single_ne m k k' v hne

theorem readFold_preserve (k : String) :
    ∀ (rows : List (List String)) (m : List (String × RowData)),
      (∀ r ∈ rows, (decodeRow r).map Prod.fst ≠ some k) →
      mapGet (rows.foldl readRowStep m) k = mapGet m k := by
  intro rows
  induction rows with
  | nil => intro m _; rfl
  | cons r rs ih =>
    intro m h
    simp only [List.foldl_cons]
    rw [ih _ (fun r' hr' => h r' (List.mem_cons_of_mem _ hr'))]
    unfold readRowStep
    cases hd : decodeRow r with
    | none => rfl
    | some kv =>
      obtain ⟨k1, v1⟩ := kv
      have hk1 : k1 ≠ k := by
        have := h r (List.mem_cons_self r rs)
        simp only [hd, Option.map_some'] at this
        intro hh; exact this (by rw [hh])
      exact mapGet_mapSet_ne m k1 k v1 (fun hh => hk1 hh.symm)

theorem readStep_isSome (m : List (String × RowData)) (r : List String) (k : String) :
    (mapGet (readRowStep m r) k).isSome = true ↔
      ((mapGet m k).isSome = true ∨ (decodeRow r).map Prod.fst = some k) := by
  unfold readRowStep
  cases hd : decodeRow r with
  | none => simp
  | some kv =>
    obtain ⟨k1, v1⟩ := kv
    by_cases hk : k1 = k
    · subst hk
      simp [mapGet_mapSet_self]
    · rw [mapGet_mapSet_ne m k1 k v1 (fun hh => hk hh.symm)]
      simp [hk]

theorem readFold_isSome (k : String) :
    ∀ (rows : List (List String)) (m : List (String × RowData)),
      (mapGet (rows.foldl readRowStep m) k).isSome = true ↔
        ((mapGet m k).isSome = true ∨
          ∃ r ∈ rows, (decodeRow r).map Prod.fst = some k) := by
  intro rows
  induction rows with
  | nil => intro m; simp
  | cons r rs ih =>
    intro m
    simp only [List.foldl_cons]
    rw [ih, readStep_isSome]
    constructor
    · rintro (⟨h | h⟩ | ⟨r', hr', hk⟩)
      · exact Or.inl h
      · exact Or.inr ⟨r, List.mem_cons_self r rs, h⟩
      · exact Or.inr ⟨r', List.mem_cons_of_mem _ hr', hk⟩
    · rintro (h | ⟨r', hr', hk⟩)
      · exact Or.inl (Or.inl h)
      · rcases List.mem_cons.mp hr' with hr | hr
        · subst hr; exact Or.inl (Or.inr hk)
        · exact Or.inr ⟨r', hr, hk⟩

theorem find?_prefix_first {α : Type} (p : α → Bool) :
    ∀ (pre : List α) (f : α) (post : List α),
      p f = true → (∀ g ∈ pre, p g = false) →
      (pre ++ f :: post).find? p = some f := by
  intro pre
  induction pre with
  | nil => intro f post hf _; simp only [List.nil_append, List.find?_cons, hf]
  | cons a as ih =>
    intro f post hf hall
    have ha : p a = false := hall a (List.mem_cons_self a as)
    simp only [List.cons_append, List.find?_cons, ha]
    exact ih f post hf (fun g hg => hall g (List.mem_cons_of_mem _ hg))

theorem updFile_idem (s : String) (f : ScriptFile) :
    updFile s (updFile s f) = updFile s f := by
  unfold updFile
  by_cases h : (f.name == "Code" || f.name == "Código" || f.type == "SERVER_JS") = true
  · simp [h]
  · simp [h]

theorem updateScriptFiles_idem (s : String) (t : List ScriptFile) :
    updateScriptFiles s (updateScriptFiles s t) = updateScriptFiles s t := by
  unfold updateScriptFiles
  rw [List.map_map]
  congr 1
  funext f
  simpa [Function.comp] using updFile_idem s f

theorem copyFunctionFiles_idem (sf : ScriptFile) (t : List ScriptFile) :
    copyFunctionFiles sf (copyFunctionFiles sf t) = copyFunctionFiles sf t := by
  unfold copyFunctionFiles
  rw [List.filter_append]
  have h1 : List.filter (fun f => f.name != "Code")
      [(⟨"Code", "SERVER_JS", sf.source⟩ : ScriptFile)] = [] := by
    simp [List.filter, bne_self_eq_false]
  rw [h1, List.append_nil, List.filter_filter]
  simp only [Bool.and_self]

/-! ## Claim theorems -/

/-- C7: `extractSpreadsheetId` returns the canonical ID `ABC123` for the
full URL, the path fragment and the bare-ID reference forms. -/
theorem identifier_resolver_canonical :
    extractSpreadsheetId "https://docs.google.com/spreadsheets/d/ABC123/edit" = some "ABC123"
  ∧ extractSpreadsheetId "/spreadsheets/d/ABC123" = some "ABC123"
  ∧ extractSpreadsheetId "ABC123" = some "ABC123" := by
  refine ⟨by decide, by decide, by decide⟩

/-- C8: asset cell `img1,img2` decodes to the two IDs; coordinate cell
`1,2,3,4` decodes to the two pairs; odd-count cell `1,2,3` drops the
trailing unpaired token. -/
theorem manifest_row_decoding :
    decodeAssets (some "img1,img2") = ["img1", "img2"]
  ∧ decodeCoords (some "1,2,3,4") = [(1, 2), (3, 4)]
  ∧ decodeCoords (some "1,2,3") = [(1, 2)] := by
  refine ⟨by decide, by decide, by decide⟩

/-- C10: a coordinate pair one of whose two tokens fails `parseInt`
(`isNaN`) is dropped at any position while the remaining pairs are still
consumed; in particular `1,x,3,4` decodes to `[(3,4)]`. -/
theorem coords_malformed_pair_dropped :
    (∀ (a b : List Char) (rest : List (List Char)),
        parseIntJS a = none ∨ parseIntJS b = none →
        parsePairs (a :: b :: rest) = parsePairs rest)
  ∧ decodeCoords (some "1,x,3,4") = [(3, 4)] := by
  constructor
  · intro a b rest h
    rcases h with h | h
    · simp [parsePairs, h]
    · cases ha : parseIntJS a <;> simp [parsePairs, ha, h]
  · decide

/-- Witness for C10 at the concrete malformed pair `("1", "x")`. -/
theorem coords_malformed_pair_dropped_witness :
    parseIntJS "x".data = none
  ∧ parsePairs ("1".data :: "x".data :: ["3".data, "4".data])
      = parsePairs ["3".data, "4".data] :=
  ⟨by decide, coords_malformed_pair_dropped.1 "1".data "x".data ["3".data, "4".data]
    (Or.inr (by decide))⟩

/-- C9: when several accepted manifest rows share a target spreadsheet ID,
`readScriptIds` keeps the data of the last such row (JS `Map.set`
overwrites). -/
theorem duplicate_manifest_keys_last_wins
    (rows1 rows2 : List (List String)) (row : List String) (k : String) (v : RowData)
    (hrow : decodeRow row = some (k, v))
    (hafter : ∀ r ∈ rows2, (decodeRow r).map Prod.fst ≠ some k) :
    mapGet (readScriptIdsModel (rows1 ++ row :: rows2)) k = some v := by
  unfold readScriptIdsModel
  rw [List.foldl_append, List.foldl_cons, readFold_preserve k rows2 _ hafter]
  unfold readRowStep
  rw [hrow]
  exact mapGet_mapSet_self _ k v

/-- Witness for C9: two rows with key `K12`; the second row's script ID
wins. -/
theorem duplicate_manifest_keys_last_wins_witness :
    decodeRow ["K12", "ScriptTwo"] = some ("K12", ⟨"ScriptTwo", [], []⟩)
  ∧ mapGet (readScriptIdsModel [["K12", "ScriptOne"], ["K12", "ScriptTwo"]]) "K12"
      = some ⟨"ScriptTwo", [], []⟩ :=
  ⟨by decide, duplicate_manifest_keys_last_wins [["K12", "ScriptOne"]] []
    ["K12", "ScriptTwo"] "K12" ⟨"ScriptTwo", [], []⟩ (by decide) (by simp)⟩

/-- C2 counterexample: the row `["SOMEID", ""]` has a non-empty resolved
spreadsheet ID but an empty script cell; `readScriptIds` does NOT record it
(the `if (spreadsheetId && scriptId)` guard drops it), so the claim that
such rows are still recorded in the Manifest is false. -/
theorem manifest_acceptance_counterexample :
    optTruthy (rowSpreadsheetIdRaw ["SOMEID", ""]) = some "SOMEID"
  ∧ mapGet (readScriptIdsModel [["SOMEID", ""]]) "SOMEID" = none
  ∧ readScriptIdsModel [["SOMEID", ""]] = [] := by
  refine ⟨by decide, by decide, by decide⟩

/-- C2 amended: in `readScriptIds` a fetched row is recorded in the Manifest
iff BOTH its resolved spreadsheet ID and its script ID are truthy (rows
missing a script ID are dropped, only logged); a row whose script cell is
falsy is never accepted; in `readSheetIds` (`src/index.js`), by contrast,
every row with a truthy resolved spreadsheet ID is kept even when its
script cell is empty. -/
theorem manifest_acceptance_amended :
    (∀ (rows : List (List String)) (k : String),
        (mapGet (readScriptIdsModel rows) k).isSome = true ↔
          ∃ r ∈ rows, (decodeRow r).map Prod.fst = some k)
  ∧ (∀ (rows : List (List String)) (row : List String), row ∈ rows →
        sheetEntryKept ⟨rowSpreadsheetIdRaw row, rowScriptIdRaw row⟩ = true →
        SheetEntry.mk (rowSpreadsheetIdRaw row) (rowScriptIdRaw row)
          ∈ readSheetIdsModel rows)
  ∧ (∀ row : List String, optTruthy (rowScriptIdRaw row) = none →
        decodeRow row = none) := by
  refine ⟨?_, ?_, ?_⟩
  · intro rows k
    unfold readScriptIdsModel
    rw [readFold_isSome k rows []]
    simp [mapGet]
  · intro rows row hmem hkept
    unfold readSheetIdsModel
    rw [List.mem_filter]
    exact ⟨List.mem_map_of_mem _ hmem, hkept⟩
  · intro row h
    cases hx : optTruthy (rowSpreadsheetIdRaw row) <;> simp [decodeRow, h, hx]

/-- Witness for C2 amended: the dropped-by-`readScriptIds` row is kept by
`readSheetIds` with a null script ID. -/
theorem manifest_acceptance_amended_witness :
    SheetEntry.mk (rowSpreadsheetIdRaw ["SOMEID", ""]) (rowScriptIdRaw ["SOMEID", ""])
      ∈ readSheetIdsModel [["SOMEID", ""]] :=
  manifest_acceptance_amended.2.1 [["SOMEID", ""]] ["SOMEID", ""] (by decide) (by decide)

/-- Concrete source file list refuting C6's priority rule: a substring
match precedes an exact `Code` match in list order. -/
def mixedCodeFiles : List ScriptFile :=
  [⟨"MyCode", "SERVER_JS", "AAA"⟩, ⟨"Code", "SERVER_JS", "BBB"⟩]

/-- C6 counterexample: on `[MyCode, Code]` the source search of
`updateScriptContent` returns `MyCode` (first file in list order matching
the disjunction), while the claimed exact-name-first priority would return
`Code`. -/
theorem code_file_selection_counterexample :
    sourceCodeFile mixedCodeFiles = some ⟨"MyCode", "SERVER_JS", "AAA"⟩
  ∧ specCodeFilePriority mixedCodeFiles = some ⟨"Code", "SERVER_JS", "BBB"⟩
  ∧ sourceCodeFile mixedCodeFiles ≠ specCodeFilePriority mixedCodeFiles := by
  refine ⟨by decide, by decide, by decide⟩

/-- C6 amended: the search returns the first file in list order satisfying
ANY of the three criteria (exact `Code`, exact `Código`, substring `Code`) —
there is no priority among the criteria — and it fails (`SourceFileMissing`)
iff no file satisfies any of them. -/
theorem code_file_selection_amended :
    (∀ files : List ScriptFile,
        (sourceCodeFile files = none ↔ ∀ f ∈ files, indexCodeMatch f = false))
  ∧ (∀ (pre : List ScriptFile) (f : ScriptFile) (post : List ScriptFile),
        indexCodeMatch f = true → (∀ g ∈ pre, indexCodeMatch g = false) →
        sourceCodeFile (pre ++ f :: post) = some f) := by
  constructor
  · intro files
    unfold sourceCodeFile
    rw [List.find?_eq_none]
    constructor
    · intro h f hf
      have := h f hf
      simpa using this
    · intro h f hf
      simp [h f hf]
  · intro pre f post hf hall
    exact find?_prefix_first indexCodeMatch pre f post hf hall

/-- Witness for C6 amended: a non-matching file followed by a substring
match; the substring match is returned. -/
theorem code_file_selection_amended_witness :
    sourceCodeFile [⟨"Styles", "HTML", "h"⟩, ⟨"MyCode", "SERVER_JS", "AAA"⟩]
      = some ⟨"MyCode", "SERVER_JS", "AAA"⟩ :=
  code_file_selection_amended.2 [⟨"Styles", "HTML", "h"⟩]
    ⟨"MyCode", "SERVER_JS", "AAA"⟩ [] (by decide) (by decide)

/-- C4: any existing target file whose name is neither `Code` nor `Código`
and whose type is not `SERVER_JS` appears unchanged (same name, type and
source) in the replacement list pushed by both `copyFunction` and
`updateScriptContent`. -/
theorem transfer_frame_preserved (sf : ScriptFile) (srcSource : String)
    (targetFiles : List ScriptFile) (f : ScriptFile)
    (hmem : f ∈ targetFiles) (h1 : f.name ≠ "Code") (h2 : f.name ≠ "Código")
    (h3 : f.type ≠ "SERVER_JS") :
    f ∈ copyFunctionFiles sf targetFiles ∧ f ∈ updateScriptFiles srcSource targetFiles := by
  constructor
  · unfold copyFunctionFiles
    apply List.mem_append_left
    rw [List.mem_filter]
    refine ⟨hmem, ?_⟩
    simp [bne_iff_ne, h1]
  · unfold updateScriptFiles
    have hfix : updFile srcSource f = f := by
      simp [updFile, h1, h2, h3]
    rw [← hfix]
    exact List.mem_map_of_mem _ hmem

/-- Witness for C4: a manifest file (`appsscript`, `JSON`) passes through
both transforms untouched. -/
theorem transfer_frame_preserved_witness :
    (⟨"appsscript", "JSON", "mani"⟩ : ScriptFile)
      ∈ copyFunctionFiles ⟨"Code", "SERVER_JS", "S"⟩ [⟨"appsscript", "JSON", "mani"⟩]
  ∧ (⟨"appsscript", "JSON", "mani"⟩ : ScriptFile)
      ∈ updateScriptFiles "S" [⟨"appsscript", "JSON", "mani"⟩] :=
  transfer_frame_preserved ⟨"Code", "SERVER_JS", "S"⟩ "S"
    [⟨"appsscript", "JSON", "mani"⟩] ⟨"appsscript", "JSON", "mani"⟩
    (by decide) (by decide) (by decide) (by decide)

/-- C5: for a fixed source project content, applying the content transform
of `copyFunction` (resp. `updateScriptContent`) to its own output yields
that output again — the overwrite is idempotent. -/
theorem transfer_idempotent (sourceFiles t t1 u1 : List ScriptFile) :
    (copyFunctionModel sourceFiles t = .ok t1 →
      copyFunctionModel sourceFiles t1 = .ok t1)
  ∧ (updateScriptContentModel sourceFiles t = .ok u1 →
      updateScriptContentModel sourceFiles u1 = .ok u1) := by
  constructor
  · intro h
    unfold copyFunctionModel at h ⊢
    cases hf : copyFunctionSourceFile sourceFiles with
    | none => simp [hf] at h
    | some sf =>
      simp only [hf] at h ⊢
      simp only [Except.ok.injEq] at h
      subst h
      simp only [Except.ok.injEq]
      exact copyFunctionFiles_idem sf t
  · intro h
    unfold updateScriptContentModel at h ⊢
    cases hf : sourceCodeFile sourceFiles with
    | none => simp [hf] at h
    | some sf =>
      simp only [hf] at h ⊢
      simp only [Except.ok.injEq] at h
      subst h
      simp only [Except.ok.injEq]
      exact updateScriptFiles_idem sf.source t

/-- Witness for C5 at a concrete one-file source and target. -/
theorem transfer_idempotent_witness :
    copyFunctionModel [⟨"Code", "SERVER_JS", "S"⟩] [⟨"Code", "SERVER_JS", "S"⟩]
      = .ok [⟨"Code", "SERVER_JS", "S"⟩]
  ∧ updateScriptContentModel [⟨"Code", "SERVER_JS", "S"⟩] [⟨"Main", "SERVER_JS", "S"⟩]
      = .ok [⟨"Main", "SERVER_JS", "S"⟩] :=
  ⟨(transfer_idempotent [⟨"Code", "SERVER_JS", "S"⟩] [] [⟨"Code", "SERVER_JS", "S"⟩]
      []).1 rfl,
   (transfer_idempotent [⟨"Code", "SERVER_JS", "S"⟩] [⟨"Main", "SERVER_JS", "old"⟩] []
      [⟨"Main", "SERVER_JS", "S"⟩]).2 rfl⟩

theorem processOp_per_target {α : Type} (okD : String → α → Detail)
    (step : String → Except String α) (targets : List String) :
    (processOp okD step targets).total = targets.length
  ∧ (processOp okD step targets).details.length = targets.length
  ∧ (processOp okD step targets).successful + (processOp okD step targets).failed
      = targets.length
  ∧ ∀ i : Nat, (processOp okD step targets).details[i]?
      = (targets[i]?).map (outcomeDetail okD step) := by
  rw [processOp_spec]
  refine ⟨rfl, by simp, countP_add_not _ targets, ?_⟩
  intro i
  simp [List.getElem?_map]

/-- C1: in both orchestrator loops, after the master manifest has been read
successfully, each target contributes exactly one detail entry, in input
order, determined solely by its own try-block outcome (a throwing target is
recorded `failed` and the loop continues); `total` equals the target count
and equals `successful + failed`, wherever the failing targets sit. -/
theorem batch_containment (m : List (String × RowData))
    (copyRes : String → Except String Unit) (env : ButtonsEnv)
    (targetSheetTab : String) (buttonScript : Option String)
    (targets : List String) :
    ((processFunctionsOp m copyRes targets).total = targets.length
  ∧ (processFunctionsOp m copyRes targets).details.length = targets.length
  ∧ (processFunctionsOp m copyRes targets).successful
      + (processFunctionsOp m copyRes targets).failed = targets.length
  ∧ (∀ i : Nat, (processFunctionsOp m copyRes targets).details[i]?
      = (targets[i]?).map (outcomeDetail functionsOkDetail (functionsTryBlock m copyRes)))
  ∧ (∀ i : Nat, ((processFunctionsOp m copyRes targets).details[i]?).map Detail.status
      = (targets[i]?).map (fun t =>
          if exceptOk (functionsTryBlock m copyRes t) then "success" else "failed")))
  ∧ ((processButtonsOp env targetSheetTab buttonScript targets).total = targets.length
  ∧ (processButtonsOp env targetSheetTab buttonScript targets).details.length
      = targets.length
  ∧ (processButtonsOp env targetSheetTab buttonScript targets).successful
      + (processButtonsOp env targetSheetTab buttonScript targets).failed
      = targets.length
  ∧ (∀ i : Nat, (processButtonsOp env targetSheetTab buttonScript targets).details[i]?
      = (targets[i]?).map (outcomeDetail buttonsOkDetail
          (buttonsTryBlock env targetSheetTab buttonScript)))
  ∧ (∀ i : Nat,
      ((processButtonsOp env targetSheetTab buttonScript targets).details[i]?).map
          Detail.status
      = (targets[i]?).map (fun t =>
          if exceptOk (buttonsTryBlock env targetSheetTab buttonScript t)
          then "success" else "failed"))) := by
  unfold processFunctionsOp processButtonsOp
  have hstat1 : ∀ t : String,
      (outcomeDetail functionsOkDetail (functionsTryBlock m copyRes) t).status
        = if exceptOk (functionsTryBlock m copyRes t) then "success" else "failed" := by
    intro t
    cases h : functionsTryBlock m copyRes t <;>
      simp [outcomeDetail, exceptOk, h, functionsOkDetail, failDetail]
  have hstat2 : ∀ t : String,
      (outcomeDetail buttonsOkDetail (buttonsTryBlock env targetSheetTab buttonScript) t).status
        = if exceptOk (buttonsTryBlock env targetSheetTab buttonScript t)
          then "success" else "failed" := by
    intro t
    cases h : buttonsTryBlock env targetSheetTab buttonScript t <;>
      simp [outcomeDetail, exceptOk, h, buttonsOkDetail, failDetail]
  obtain ⟨ha1, ha2, ha3, ha4⟩ :=
    processOp_per_target functionsOkDetail (functionsTryBlock m copyRes) targets
  obtain ⟨hb1, hb2, hb3, hb4⟩ :=
    processOp_per_target buttonsOkDetail
      (buttonsTryBlock env targetSheetTab buttonScript) targets
  refine ⟨⟨ha1, ha2, ha3, ha4, ?_⟩, ⟨hb1, hb2, hb3, hb4, ?_⟩⟩
  · intro i
    rw [ha4 i]
    cases targets[i]? with
    | none => rfl
    | some t => simp [hstat1 t]
  · intro i
    rw [hb4 i]
    cases targets[i]? with
    | none => rfl
    | some t => simp [hstat2 t]

/-- Remote environment for the C3 run: one manifest row whose asset list
(`a,b`) and coordinate list (`1,2`, one pair) have different lengths; all
remote endpoints succeed. -/
def c3ButtonsEnv : ButtonsEnv where
  readRows := .ok [["TGT1", "ABCDEFGHIJKLMNOPQRSTU", "a,b", "1,2"]]
  probe := fun _ => .ok "Title"
  contentOf := fun _ => .ok []
  updateRes := fun _ _ => none
  runOf := fun _ => .ok ⟨none, none⟩

/-- C3 counterexample: on a target whose asset-ID count (2) differs from its
coordinate-pair count (1), `copyButtonsFromSheet` does throw the distinct
count-mismatch error, but only AFTER two remote calls (the master-sheet
read inside `readScriptIds` and the `script.projects.get` validation
probe) — not before any remote call, as claimed. -/
theorem placeassets_precondition_counterexample :
    (copyButtonsModel c3ButtonsEnv (some "TGT1") "Tab" none).1
      = .error "Error copying buttons to TGT1: Mismatch: 2 button IDs but 1 coordinate pairs"
  ∧ (copyButtonsModel c3ButtonsEnv (some "TGT1") "Tab" none).2
      = [.manifestRead, .scriptProbe "ABCDEFGHIJKLMNOPQRSTU"]
  ∧ (copyButtonsModel c3ButtonsEnv (some "TGT1") "Tab" none).2 ≠ [] := by
  refine ⟨rfl, by decide, by decide⟩

/-- C3 amended: on a count mismatch (both lists non-empty, script ID
validated) the operation fails with the distinct count-mismatch error after
exactly the manifest-read and script-validation remote calls, and before
any script-content or execution call (`getContent`, `updateContent`,
`scripts.run`). -/
theorem placeassets_precondition_amended (env : ButtonsEnv)
    (rows : List (List String)) (tgt tab : String) (bs : Option String)
    (data : RowData) (title : String)
    (hrows : env.readRows = .ok rows)
    (hlook : mapGet (readScriptIdsModel rows) tgt = some data)
    (hne : data.scriptId ≠ "")
    (h20 : ¬ data.scriptId.length < 20)
    (hdat : data.scriptId.data.isEmpty = false)
    (hpat : data.scriptId.data.all isIdChar = true)
    (hprobe : env.probe data.scriptId = .ok title)
    (hids : data.buttonImageIds.isEmpty = false)
    (hcoords : data.coordinates.isEmpty = false)
    (hmis : data.buttonImageIds.length ≠ data.coordinates.length) :
    copyButtonsModel env (some tgt) tab bs
      = (.error ("Error copying buttons to " ++ tgt ++ ": "
          ++ ("Mismatch: " ++ toString data.buttonImageIds.length ++ " button IDs but "
            ++ toString data.coordinates.length ++ " coordinate pairs")),
         [.manifestRead, .scriptProbe data.scriptId]) := by
  have hval : validateAndTestScriptAccess env data.scriptId
      = (.valid title, [.scriptProbe data.scriptId]) := by
    unfold validateAndTestScriptAccess
    rw [if_neg (by simp [hne, h20]), if_neg (by simp [hdat, hpat]), hprobe]
  unfold copyButtonsModel
  rw [hrows]
  simp only [Option.some_bind, hlook, if_neg hne, hval, hids, hcoords,
    if_pos hmis, Bool.false_eq_true, if_false, jsShow]

/-- Witness for C3 amended at the concrete `c3ButtonsEnv` run. -/
theorem placeassets_precondition_amended_witness :
    copyButtonsModel c3ButtonsEnv (some "TGT1") "Tab" none
      = (.error "Error copying buttons to TGT1: Mismatch: 2 button IDs but 1 coordinate pairs",
         [.manifestRead, .scriptProbe "ABCDEFGHIJKLMNOPQRSTU"]) :=
  placeassets_precondition_amended c3ButtonsEnv
    [["TGT1", "ABCDEFGHIJKLMNOPQRSTU", "a,b", "1,2"]] "TGT1" "Tab" none
    ⟨"ABCDEFGHIJKLMNOPQRSTU", ["a", "b"], [(1, 2)]⟩ "Title"
    rfl (by decide) (by decide) (by decide) (by decide) (by decide) rfl
    (by decide) (by decide) (by decide)
